import Mathlib

/-!
Verification development for the HFPlot layout and axis-boundary library.

The definitions below are a shallow embedding of the Python sources:
  * `map_value`            from src/hfplot/utilities.py
  * `make_margins`         from src/hfplot/plot_helpers.py
  * `addCell`, `computeCellsList`, `makePlotSpecRel`, `definePlot`, ...
                           from src/hfplot/plot_spec.py (class FigureSpec)
  * `fbTH1`, `fbTF1`, `fbTGraph`, `fbTH2`, `find_boundaries`
                           from src/hfplot/root_helpers.py
  * `createFrameLimits`, `styleFrameXSizes`
                           from src/hfplot/plot_spec_root.py (class ROOTPlot)

Python floats are modelled as rational numbers (idealized real arithmetic);
`math.log10` and `10 ** x` are backend/library calls and are modelled as
explicit function parameters, with the `math.log10` domain error (argument
less or equal zero) reflected by an `Option` guard.  Paths on which the
Python code raises an exception are modelled as `none` results.
-/

namespace HFPlot

/-- From src/hfplot/utilities.py, `map_value`: map a value from one interval
to a new interval; for a degenerate source interval it returns
`(new_max - new_min) / 2`. -/
def map_value (old_value old_min old_max new_min new_max : ℚ) : ℚ :=
  if old_min = old_max then (new_max - new_min) / 2
  else (old_value - old_min) * (new_max - new_min) / (old_max - old_min) + new_min

/-- Argument forms accepted by `make_margins` (src/hfplot/plot_helpers.py):
a bare number, a flat list/tuple of numbers, or a list of lists/tuples of
numbers.  Python distinguishes the three by probing `iter(margins)` and
`iter(margins[0])`. -/
inductive MarginsArg where
  | scalar (q : ℚ)
  | flat (l : List ℚ)
  | nested (l : List (List ℚ))

/-- Errors raised by `make_margins`:
  * `indexError`: `margins[0]` on an empty sequence raises `IndexError`
    (only `TypeError` is caught by the dispatch probes);
  * `needPair`: the `ValueError` "Need tuple/list with 2 entries ...";
  * `lengthMismatch got expected`: the `ValueError` "Need as many
    tuples/lists (got) as number of slices (expected)". -/
inductive MarginErr where
  | indexError
  | needPair
  | lengthMismatch (got expected : ℕ)
deriving DecidableEq

/-- Whether a `MarginErr` is the length-mismatch error. -/
def MarginErr.isLengthMismatch : MarginErr → Bool
  | lengthMismatch _ _ => true
  | _ => false

/-- From src/hfplot/plot_helpers.py, `make_margins(margins, n_slices)`:
a scalar broadcasts to `n` copies of the pair; a flat 2-element sequence
broadcasts to `n` copies of itself; a sequence of sequences must have
length `n` and 2-element members and passes through unchanged.  An empty
sequence raises `IndexError` when probing `margins[0]`. -/
def make_margins : MarginsArg → ℕ → Except MarginErr (List (List ℚ))
  | .scalar q, n => .ok (List.replicate n [q, q])
  | .flat l, n =>
      match l with
      | [] => .error .indexError
      | _ :: _ =>
          if l.length = 2 then .ok (List.replicate n l) else .error .needPair
  | .nested l, n =>
      match l with
      | [] => .error .indexError
      | _ :: _ =>
          if l.length ≠ n then .error (.lengthMismatch l.length n)
          else if l.any (fun m => m.length ≠ 2) then .error .needPair
          else .ok l

/-- From src/hfplot/plot_spec.py, `FigureSpec.__add_cell`: if the cell is
already in `cells_taken` emit one warning (second component counts emitted
warnings) and leave the list unchanged, otherwise append the cell. -/
def addCell (taken : List ℕ) (cell : ℕ) : List ℕ × ℕ :=
  if cell ∈ taken then (taken, 1) else (taken ++ [cell], 0)

/-- The sequence of `__add_cell` calls issued by
`FigureSpec.__compute_cells(col_low, row_low, col_up, row_up)`
(src/hfplot/plot_spec.py, lines 328-352): first the lower-left cell, then
the double loop over `range(row_up - row_low)` and
`range(col_up - col_low)` skipping `(0, 0)`. -/
def computeCellsList (n_cols col_low row_low col_up row_up : ℕ) : List ℕ :=
  let low_left := row_low * n_cols + col_low
  let walk_n_rows := row_up - row_low
  let walk_n_cols := col_up - col_low
  low_left :: (List.range walk_n_rows).flatMap (fun i =>
    (List.range walk_n_cols).filterMap (fun j =>
      if i = 0 ∧ j = 0 then none else some (low_left + i * n_cols + j)))

/-- Fold `__add_cell` over a sequence of cell claims, starting from the
current `cells_taken` list. -/
def claimCells (taken : List ℕ) (cells : List ℕ) : List ℕ :=
  cells.foldl (fun t c => (addCell t c).1) taken

/-- From src/hfplot/plot_spec.py, `FigureSpec.__make_plot_spec`
(lines 360-405), restricted to the relative-coordinate computation: the
four accumulation loops over the normalized width and height ratios.
Result is `(rel_left, rel_bottom, rel_right, rel_top)`. -/
def makePlotSpecRel (n_cols n_rows : ℕ) (width_ratios height_ratios : List ℚ)
    (col_low row_low col_up row_up : ℕ) : ℚ × ℚ × ℚ × ℚ :=
  let sum_height_ratios := height_ratios.sum
  let sum_width_ratios := width_ratios.sum
  let rel_bottom :=
    (List.range row_low).foldl
      (fun acc i => acc + height_ratios.getD i 0 / sum_height_ratios) 0
  let rel_top :=
    ((List.range' (row_up + 1) (n_rows - 1 - row_up)).reverse).foldl
      (fun acc i => acc - height_ratios.getD i 0 / sum_height_ratios) 1
  let rel_left :=
    (List.range col_low).foldl
      (fun acc i => acc + width_ratios.getD i 0 / sum_width_ratios) 0
  let rel_right :=
    ((List.range' (col_up + 1) (n_cols - 1 - col_up)).reverse).foldl
      (fun acc i => acc - width_ratios.getD i 0 / sum_width_ratios) 1
  (rel_left, rel_bottom, rel_right, rel_top)

/-- The data `FigureSpec.__make_plot_spec` stores on the created `PlotSpec`:
relative coordinates and the outer-edge margins of the spanned cells. -/
structure PlotRec where
  rel : ℚ × ℚ × ℚ × ℚ
  col_margins : ℚ × ℚ
  row_margins : ℚ × ℚ
deriving DecidableEq

/-- The state of a `FigureSpec` (src/hfplot/plot_spec.py) relevant to plot
definition: grid shape, ratios, margins, occupancy tracker and the list of
defined plot specifications. -/
structure FigureState where
  n_cols : ℕ
  n_rows : ℕ
  height_ratios : List ℚ
  width_ratios : List ℚ
  row_margins : List (List ℚ)
  column_margins : List (List ℚ)
  cells_taken : List ℕ
  plot_specs : List PlotRec
  current_plot_spec : Option PlotRec
deriving DecidableEq

/-- `FigureSpec.__make_plot_spec`: build the `PlotSpec` record for a span,
with `(column_margins[col_low][0], column_margins[col_up][1])` and
`(row_margins[row_low][0], row_margins[row_up][1])` as outer margins. -/
def makePlotSpec (st : FigureState) (col_low row_low col_up row_up : ℕ) : PlotRec :=
  { rel := makePlotSpecRel st.n_cols st.n_rows st.width_ratios st.height_ratios
      col_low row_low col_up row_up
    col_margins := ((st.column_margins.getD col_low []).getD 0 0,
                    (st.column_margins.getD col_up []).getD 1 0)
    row_margins := ((st.row_margins.getD row_low []).getD 0 0,
                    (st.row_margins.getD row_up []).getD 1 0) }

/-- Errors raised by `FigureSpec.define_plot`:
  * `unpackMismatch`: the `ValueError` raised by unpacking a 1-element
    tuple into `col_low, row_low, col_up, row_up`;
  * `badArity`: the explicit `ValueError` for 3 or more than 4 arguments;
  * `minRange` and `maxRange`: the span validation errors (`ValueError`);
  * `noFreeCells`: the `IndexError` for automatic placement with no free
    cell left. -/
inductive DPError where
  | unpackMismatch
  | badArity
  | minRange
  | maxRange
  | noFreeCells
deriving DecidableEq

/-- Which `DPError`s correspond to a Python `ValueError` (`noFreeCells`
is raised as an `IndexError`). -/
def DPError.isValueError : DPError → Bool
  | .noFreeCells => false
  | _ => true

/-- The free cells of the grid in ascending order: the Python code builds
`sorted(set(range(n_cols * n_rows)) - set(cells_taken))`. -/
def freeCells (st : FigureState) : List ℕ :=
  (List.range (st.n_cols * st.n_rows)).filter (fun c => decide (c ∉ st.cells_taken))

/-- The span-resolution part of `FigureSpec.define_plot`
(src/hfplot/plot_spec.py, lines 458-485): arity dispatch, automatic
placement at the lowest free cell, and the range validation.  The 1x1
short-circuit is handled by the caller `definePlot`. -/
def definePlotSpan (st : FigureState) (args : List ℤ) :
    Except DPError (ℕ × ℕ × ℕ × ℕ) :=
  let spanE : Except DPError (ℤ × ℤ × ℤ × ℤ) :=
    match args with
    | [] =>
        match freeCells st with
        | [] => .error .noFreeCells
        | c :: _ =>
            .ok (((c % st.n_cols : ℕ) : ℤ), ((c / st.n_cols : ℕ) : ℤ),
                 ((c % st.n_cols : ℕ) : ℤ), ((c / st.n_cols : ℕ) : ℤ))
    | _ =>
        if args.length = 3 ∨ 4 < args.length then .error .badArity
        else
          match args with
          | [a, b] => .ok (a, b, a, b)
          | [a, b, c, d] => .ok (a, b, c, d)
          | _ => .error .unpackMismatch
  match spanE with
  | .error e => .error e
  | .ok (col_low, row_low, col_up, row_up) =>
      if row_low < 0 ∨ col_low < 0 then .error .minRange
      else if (st.n_rows : ℤ) ≤ row_up ∨ (st.n_cols : ℤ) ≤ col_up then .error .maxRange
      else .ok (col_low.toNat, row_low.toNat, col_up.toNat, row_up.toNat)

/-- `FigureSpec.define_plot` (src/hfplot/plot_spec.py, lines 436-500): on a
1x1 grid whose plot was already defined, return the current plot spec
unchanged; otherwise resolve the span, claim the covered cells, build the
`PlotSpec` and set it current. -/
def definePlot (st : FigureState) (args : List ℤ) : Except DPError FigureState :=
  if st.n_cols = 1 ∧ st.n_rows = 1 ∧ st.current_plot_spec.isSome = true then .ok st
  else
    match definePlotSpan st args with
    | .error e => .error e
    | .ok (col_low, row_low, col_up, row_up) =>
        let taken := claimCells st.cells_taken
          (computeCellsList st.n_cols col_low row_low col_up row_up)
        let ps := makePlotSpec st col_low row_low col_up row_up
        .ok { st with cells_taken := taken,
                      plot_specs := st.plot_specs ++ [ps],
                      current_plot_spec := some ps }

/-- `make_margins` applied to a margin specification, with errors mapped
to an empty list (the defaults used below never error). -/
def marginsOrNil (a : MarginsArg) (n : ℕ) : List (List ℚ) :=
  match make_margins a n with
  | .ok l => l
  | .error _ => []

/-- `FigureSpec.__init__` with default keyword arguments: equal ratios,
scalar margin `0.05` per row and column, no cells taken; a 1x1 grid
immediately defines its single plot via `define_plot(0, 0)`. -/
def mkFigure (n_cols n_rows : ℕ) : FigureState :=
  let st : FigureState :=
    { n_cols := n_cols
      n_rows := n_rows
      height_ratios := List.replicate n_rows 1
      width_ratios := List.replicate n_cols 1
      row_margins := marginsOrNil (.scalar (1/20)) n_rows
      column_margins := marginsOrNil (.scalar (1/20)) n_cols
      cells_taken := []
      plot_specs := []
      current_plot_spec := none }
  if n_cols = 1 ∧ n_rows = 1 then
    match definePlot st [0, 0] with
    | .ok st2 => st2
    | .error _ => st
  else st

/-- `MIN_LOG_SCALE = 0.00000000001` from src/hfplot/root_helpers.py. -/
def MIN_LOG_SCALE : ℚ := 1 / 10 ^ 11

/-- `sys.float_info.max` as an exact rational, `(2^53 - 1) * 2^971`
(written as a decimal literal so that it evaluates; see
`FLOAT_INFO_MAX_eq`). -/
def FLOAT_INFO_MAX : ℚ := 179769313486231570814527423731704356798070567525844996598917476803157260780028538760589558632766878171540458953514382464234321326889464182768467546703537516986049910576551282076245490090389328944075868508455133942304583236903222948165808559332123348274797826204144723168738177180919299881250404026184124858368

/-- `sys.float_info.min` as an exact rational, `2^-1022` (the smallest
positive normal double; in particular a small *positive* number; written
as a decimal literal so that it evaluates; see `FLOAT_INFO_MIN_eq`). -/
def FLOAT_INFO_MIN : ℚ := 1 / 44942328371557897693232629769725618340449424473557664318357520289433168951375240783177119330601884005280028469967848339414697442203604155623211857659868531094441973356216371319075554900311523529863270738021251442209537670585615720368478277635206809290837627671146574559986811484619929076208839082406056034304

/-- The decimal literal in `FLOAT_INFO_MAX` is exactly `(2^53 - 1) * 2^971`. -/
lemma FLOAT_INFO_MAX_eq : FLOAT_INFO_MAX = (2 ^ 53 - 1) * 2 ^ 971 := by
  norm_num [FLOAT_INFO_MAX]

/-- The decimal literal in `FLOAT_INFO_MIN` is exactly `1 / 2^1022`. -/
lemma FLOAT_INFO_MIN_eq : FLOAT_INFO_MIN = 1 / 2 ^ 1022 := by
  norm_num [FLOAT_INFO_MIN]

/-- A 1D histogram as seen through the backend accessors used by
`find_boundaries_TH1`: bin contents and errors for bins `1..n`, the axis
extent, and the bin edge accessors. -/
structure Hist1D where
  contents : List ℚ
  errors : List ℚ
  xmin : ℚ
  xmax : ℚ
  lowEdge : ℕ → ℚ
  upEdge : ℕ → ℚ

/-- `GetNbinsX()`. -/
def Hist1D.nbins (h : Hist1D) : ℕ := h.contents.length

/-- `GetBinContent(i)` for `i` in `1..n`. -/
def Hist1D.content (h : Hist1D) (i : ℕ) : ℚ := h.contents.getD (i - 1) 0

/-- `GetBinError(i)` for `i` in `1..n`. -/
def Hist1D.binError (h : Hist1D) (i : ℕ) : ℚ := h.errors.getD (i - 1) 0

/-- The forward scan of `find_boundaries_TH1` (src/hfplot/root_helpers.py,
lines 161-174): walk bins from the front, remember the low edge of every
non-empty bin, and stop at the first one compatible with a log-scale x
axis (or at the first non-empty bin when `x_log` is false); returns the
resulting `x_low` and `start_bin` (which stays 1 when no break occurred). -/
def scanFrontAux (h : Hist1D) (x_log : Bool) : List ℕ → ℚ → ℚ × ℕ
  | [], x_low => (x_low, 1)
  | i :: rest, x_low =>
      if h.content i ≠ 0 then
        let x_low2 := h.lowEdge i
        if (0 < x_low2 ∧ x_log = true) ∨ x_log = false then (x_low2, i)
        else scanFrontAux h x_log rest x_low2
      else scanFrontAux h x_log rest x_low

/-- The backward scan of `find_boundaries_TH1` (lines 176-186): walk bins
from the back and stop at the first non-empty bin; returns `x_up` and
`end_bin` (which stays `n` when no bin was found; the caller passes the
initial `x_up` and the bin list `n, n-1, ..., 1`). -/
def scanBackAux (h : Hist1D) : List ℕ → ℚ → ℚ × ℕ
  | [], x_up => (x_up, h.nbins)
  | i :: rest, x_up =>
      if h.content i ≠ 0 then (h.upEdge i, i)
      else scanBackAux h rest x_up

/-- `find_boundaries_TH1` (src/hfplot/root_helpers.py, lines 142-208).
`none` models the `ValueError` raised by `max` on an empty list (possible
when `y_log` filters away all values). -/
def fbTH1 (h : Hist1D) (x_low x_up y_low y_up : Option ℚ) (x_log y_log : Bool)
    (y_account_for_errors : Bool) : Option (ℚ × ℚ × ℚ × ℚ) :=
  let n := h.nbins
  let front :=
    match x_low with
    | some v => (v, 1)
    | none => scanFrontAux h x_log (List.range' 1 n) h.xmin
  let back :=
    match x_up with
    | some v => (v, n)
    | none => scanBackAux h ((List.range' 1 n).reverse) h.xmax
  let start_bin := front.2
  let end_bin := back.2
  let yl :=
    match y_low with
    | some v => some v
    | none =>
        let values := (List.range' start_bin (end_bin + 1 - start_bin)).map
          (fun i => if y_account_for_errors then h.content i - h.binError i
                    else h.content i)
        let values := if y_log then values.filter (fun v => decide (0 < v)) else values
        some (values.min?.getD MIN_LOG_SCALE)
  let yu :=
    match y_up with
    | some v => some v
    | none =>
        let values := (List.range' start_bin (end_bin + 1 - start_bin)).map
          (fun i => if y_account_for_errors then h.content i + h.binError i
                    else h.content i)
        let values := if y_log then values.filter (fun v => decide (0 < v)) else values
        values.max?
  match yl, yu with
  | some a, some b => some (front.1, back.1, a, b)
  | _, _ => none

/-- A 1D function as seen through the backend accessors used by
`find_boundaries_TF1`: the declared range (`GetRange`) and the
`GetMinimum`/`GetMaximum` evaluators over an interval. -/
structure Func1D where
  rangeLow : ℚ
  rangeUp : ℚ
  fmin : ℚ → ℚ → ℚ
  fmax : ℚ → ℚ → ℚ

/-- `find_boundaries_TF1` (src/hfplot/root_helpers.py, lines 211-242). -/
def fbTF1 (f : Func1D) (x_low x_up y_low y_up : Option ℚ) : ℚ × ℚ × ℚ × ℚ :=
  let xl := x_low.getD f.rangeLow
  let xu := x_up.getD f.rangeUp
  let yl := y_low.getD (f.fmin xl xu)
  let yu := y_up.getD (f.fmax xl xu)
  (xl, xu, yl, yu)

/-- The y-updates of one iteration of the `find_boundaries_TGraph` point
loop (lines 287-290), reached when neither user x bound filtered the
point out. -/
def graphStepYs (y_low y_up : Option ℚ) (st : ℚ × ℚ × ℚ × ℚ) (yt : ℚ) :
    ℚ × ℚ × ℚ × ℚ :=
  let st2 := if y_low = none then (st.1, st.2.1, min st.2.2.1 yt, st.2.2.2) else st
  if y_up = none then (st2.1, st2.2.1, st2.2.2.1, max st2.2.2.2 yt) else st2

/-- One iteration of the `find_boundaries_TGraph` point loop
(src/hfplot/root_helpers.py, lines 273-290): the `continue` statements
skip all remaining updates of the current point. -/
def graphStep (x_low x_up y_low y_up : Option ℚ) (st : ℚ × ℚ × ℚ × ℚ)
    (p : ℚ × ℚ) : ℚ × ℚ × ℚ × ℚ :=
  match x_low with
  | none =>
      let st1 := (min st.1 p.1, st.2.1, st.2.2.1, st.2.2.2)
      match x_up with
      | none => graphStepYs y_low y_up (st1.1, max st1.2.1 p.1, st1.2.2.1, st1.2.2.2) p.2
      | some w => if w < p.1 then st1 else graphStepYs y_low y_up st1 p.2
  | some v =>
      if p.1 < v then st
      else
        match x_up with
        | none => graphStepYs y_low y_up (st.1, max st.2.1 p.1, st.2.2.1, st.2.2.2) p.2
        | some w => if w < p.1 then st else graphStepYs y_low y_up st p.2

/-- `find_boundaries_TGraph` (src/hfplot/root_helpers.py, lines 245-292):
an empty graph returns the all-`None` sentinel, modelled as `none`. -/
def fbTGraph (points : List (ℚ × ℚ)) (x_low x_up y_low y_up : Option ℚ) :
    Option (ℚ × ℚ × ℚ × ℚ) :=
  match points with
  | [] => none
  | _ :: _ =>
      let init : ℚ × ℚ × ℚ × ℚ :=
        (x_low.getD FLOAT_INFO_MAX, x_up.getD FLOAT_INFO_MIN,
         y_low.getD FLOAT_INFO_MAX, y_up.getD FLOAT_INFO_MIN)
      some (points.foldl (graphStep x_low x_up y_low y_up) init)

/-- A 2D histogram as seen through the backend calls used by
`find_boundaries_TH2`: its X and Y projections (`ProjectionX`/`ProjectionY`
are backend calls), the axis `FindBin` lookups and the 2D bin contents. -/
structure Hist2D where
  projX : Hist1D
  projY : Hist1D
  xFindBin : ℚ → ℕ
  yFindBin : ℚ → ℕ
  content2 : ℕ → ℕ → ℚ

/-- `find_boundaries_TH2` (src/hfplot/root_helpers.py, lines 295-332):
x/y bounds via the 1D routine on the projections, z bounds via a scan of
the bin range resolved by `FindBin` (`z_log` is unused in the source). -/
def fbTH2 (h : Hist2D) (x_low x_up y_low y_up z_low z_up : Option ℚ)
    (x_log y_log z_log : Bool) : Option (ℚ × ℚ × ℚ × ℚ × ℚ × ℚ) :=
  match fbTH1 h.projX x_low x_up none none x_log false true with
  | none => none
  | some (xl, xu, _, _) =>
      match fbTH1 h.projY y_low y_up none none y_log false true with
      | none => none
      | some (yl, yu, _, _) =>
          let x_bin_low := h.xFindBin xl
          let x_bin_up := h.xFindBin xu
          let y_bin_low := h.yFindBin yl
          let y_bin_up := h.yFindBin yu
          let init : ℚ × ℚ := (z_low.getD FLOAT_INFO_MAX, z_up.getD FLOAT_INFO_MIN)
          let zs := (List.range' x_bin_low (x_bin_up + 1 - x_bin_low)).foldl
            (fun zs i =>
              (List.range' y_bin_low (y_bin_up + 1 - y_bin_low)).foldl
                (fun zs2 j =>
                  let c := h.content2 i j
                  (if z_low = none then min c zs2.1 else zs2.1,
                   if z_up = none then max c zs2.2 else zs2.2)) zs) init
          some (xl, xu, yl, yu, zs.1, zs.2)

/-- The object kinds `find_boundaries` dispatches on (lines 403-446):
1D histograms, 1D functions, graphs, 2D histograms, `TEfficiency`
(recognized but skipped with a warning) and unrecognized objects
(skipped with a warning). -/
inductive RootObject where
  | hist1d (h : Hist1D)
  | func (f : Func1D)
  | graph (points : List (ℚ × ℚ))
  | hist2d (h : Hist2D)
  | effi
  | unknown

/-- The running state of the object loop of `find_boundaries`
(lines 383-401): merged user-pass bounds, merged no-user-pass bounds and
the `adjust_y_limits` flag. -/
structure MergeState where
  x_low_new : ℚ
  x_up_new : ℚ
  y_low_new : ℚ
  y_up_new : ℚ
  z_low_new : ℚ
  z_up_new : ℚ
  x_low_nu : ℚ
  x_up_nu : ℚ
  y_low_nu : ℚ
  y_up_nu : ℚ
  z_low_nu : ℚ
  z_up_nu : ℚ
  adjust_y_limits : Bool
deriving DecidableEq

/-- The initial merge state: `sys.float_info.max` for the lows and
`sys.float_info.min` for the highs (note the latter is a small positive
number, not a very negative one), `adjust_y_limits = True`. -/
def initMergeState : MergeState :=
  ⟨FLOAT_INFO_MAX, FLOAT_INFO_MIN, FLOAT_INFO_MAX, FLOAT_INFO_MIN,
   FLOAT_INFO_MAX, FLOAT_INFO_MIN, FLOAT_INFO_MAX, FLOAT_INFO_MIN,
   FLOAT_INFO_MAX, FLOAT_INFO_MIN, FLOAT_INFO_MAX, FLOAT_INFO_MIN, true⟩

/-- The common x/y merge of one object's estimates (lines 448-458):
running max of the highs and min of the lows, for the user pass `e` and
the no-user pass `enu`. -/
def merge1D (st : MergeState) (e enu : ℚ × ℚ × ℚ × ℚ) : MergeState :=
  { st with
    x_up_new := max e.2.1 st.x_up_new
    x_low_new := min e.1 st.x_low_new
    y_up_new := max e.2.2.2 st.y_up_new
    y_low_new := min e.2.2.1 st.y_low_new
    x_up_nu := max enu.2.1 st.x_up_nu
    x_low_nu := min enu.1 st.x_low_nu
    y_up_nu := max enu.2.2.2 st.y_up_nu
    y_low_nu := min enu.2.2.1 st.y_low_nu }

/-- The merge for a 2D histogram (lines 433-439 plus the common part):
additionally merge the z estimates and clear `adjust_y_limits`. -/
def merge2D (st : MergeState) (e enu : ℚ × ℚ × ℚ × ℚ × ℚ × ℚ) : MergeState :=
  let st2 := { st with
    z_up_new := max e.2.2.2.2.2 st.z_up_new
    z_low_new := min e.2.2.2.2.1 st.z_low_new
    z_up_nu := max enu.2.2.2.2.2 st.z_up_nu
    z_low_nu := min enu.2.2.2.2.1 st.z_low_nu
    adjust_y_limits := false }
  merge1D st2 (e.1, e.2.1, e.2.2.1, e.2.2.2.1) (enu.1, enu.2.1, enu.2.2.1, enu.2.2.2.1)

/-- The object loop of `find_boundaries` (src/hfplot/root_helpers.py,
lines 403-458): run the kind-specific boundary routine twice per object
(with the user limits and without) and merge; `none` models a raised
exception in a sub-routine; graphs without points are skipped. -/
def mergeObjects (x_low x_up y_low y_up z_low z_up : Option ℚ)
    (x_log y_log z_log : Bool) (y_account_for_errors : Bool) :
    List RootObject → MergeState → Option MergeState
  | [], st => some st
  | obj :: rest, st =>
      match obj with
      | .unknown =>
          mergeObjects x_low x_up y_low y_up z_low z_up x_log y_log z_log
            y_account_for_errors rest st
      | .effi =>
          mergeObjects x_low x_up y_low y_up z_low z_up x_log y_log z_log
            y_account_for_errors rest st
      | .hist1d h =>
          match fbTH1 h x_low x_up y_low y_up x_log y_log y_account_for_errors with
          | none => none
          | some e =>
              match fbTH1 h none none none none x_log y_log y_account_for_errors with
              | none => none
              | some enu =>
                  mergeObjects x_low x_up y_low y_up z_low z_up x_log y_log z_log
                    y_account_for_errors rest (merge1D st e enu)
      | .func f =>
          let e := fbTF1 f x_low x_up y_low y_up
          let enu := fbTF1 f none none none none
          mergeObjects x_low x_up y_low y_up z_low z_up x_log y_log z_log
            y_account_for_errors rest (merge1D st e enu)
      | .graph pts =>
          match fbTGraph pts x_low x_up y_low y_up with
          | none =>
              mergeObjects x_low x_up y_low y_up z_low z_up x_log y_log z_log
                y_account_for_errors rest st
          | some e =>
              match fbTGraph pts none none none none with
              | none => none
              | some enu =>
                  mergeObjects x_low x_up y_low y_up z_low z_up x_log y_log z_log
                    y_account_for_errors rest (merge1D st e enu)
      | .hist2d h =>
          match fbTH2 h x_low x_up y_low y_up z_low z_up x_log y_log z_log with
          | none => none
          | some e =>
              match fbTH2 h none none none none none none x_log y_log z_log with
              | none => none
              | some enu =>
                  mergeObjects x_low x_up y_low y_up z_low z_up x_log y_log z_log
                    y_account_for_errors rest (merge2D st e enu)

/-- Python truthiness of an optional float keyword argument (`None` and
`0.0` are falsy). -/
def truthy : Option ℚ → Bool
  | none => false
  | some v => decide (v ≠ 0)

/-- The swap fix-up applied to each axis at the start of `find_boundaries`
(lines 362-381): if both bounds are user-fixed the wrong way round, swap
them (with a warning). -/
def swapLimits (lo hi : Option ℚ) : Option ℚ × Option ℚ :=
  match lo, hi with
  | some a, some b => if b < a then (some b, some a) else (some a, some b)
  | _, _ => (lo, hi)

/-- `math.log10` guarded by its domain: a non-positive argument raises
`ValueError` in Python, modelled as `none`; positive arguments are handed
to the abstract `log10` parameter. -/
def plog10 (log10 : ℚ → ℚ) (q : ℚ) : Option ℚ :=
  if q ≤ 0 then none else some (log10 q)

/-- Lines 460-475 of `find_boundaries`: a user-fixed upper (lower) y bound
below the no-user-pass maximum (above the no-user-pass minimum) is
overridden by the no-user-pass value, with a warning, unless the y limits
are forced. -/
def overrideUserY (y_low y_up : Option ℚ) (y_force_limits : Bool)
    (st : MergeState) : MergeState :=
  let st2 :=
    if y_up.isSome = true ∧ st.y_up_new < st.y_up_nu ∧ y_force_limits = false then
      { st with y_up_new := st.y_up_nu }
    else st
  if y_low.isSome = true ∧ st2.y_low_nu < st2.y_low_new ∧ y_force_limits = false then
    { st2 with y_low_new := st2.y_low_nu }
  else st2

/-- Lines 477-481 of `find_boundaries`: with a log-scale y axis, clamp a
non-positive merged y low (user pass and no-user pass) to `MIN_LOG_SCALE`. -/
def logClampYLow (y_log : Bool) (st : MergeState) : MergeState :=
  if y_log = true then
    let st2 := if st.y_low_new ≤ 0 then { st with y_low_new := MIN_LOG_SCALE } else st
    if st2.y_low_nu ≤ 0 then { st2 with y_low_nu := MIN_LOG_SCALE } else st2
  else st

/-- Lines 483-500 of `find_boundaries`: unless a 2D histogram cleared
`adjust_y_limits`, pad the y range by 10% (in log space when `y_log`) on
each end that is neither user-fixed nor reserved for a legend. -/
def padY (log10 pow10 : ℚ → ℚ) (y_low y_up reserve_ndc_top reserve_ndc_bottom : Option ℚ)
    (y_log : Bool) (st : MergeState) : Option MergeState :=
  if st.adjust_y_limits = true then
    match (if y_log = true then
             match plog10 log10 st.y_up_new, plog10 log10 st.y_low_new with
             | some a, some b => some (a - b)
             | _, _ => none
           else some (st.y_up_new - st.y_low_new)) with
    | none => none
    | some y_diff =>
        match (if y_low = none ∧ reserve_ndc_bottom = none then
                 if y_log = true then
                   match plog10 log10 st.y_low_new with
                   | none => none
                   | some b => some { st with y_low_new := pow10 (b - y_diff * (1/10)) }
                 else some { st with y_low_new := st.y_low_new - (1/10) * y_diff }
               else some st) with
        | none => none
        | some st2 =>
            if y_up = none ∧ reserve_ndc_top = none then
              if y_log = true then
                match plog10 log10 st2.y_up_new with
                | none => none
                | some a => some { st2 with y_up_new := pow10 (a + y_diff * (1/10)) }
              else some { st2 with y_up_new := st2.y_up_new + (1/10) * y_diff }
            else some st2
  else some st

/-- Lines 502-509 of `find_boundaries`: force the user limits verbatim
when requested and both ends are fixed (z forcing is commented out in the
source). -/
def forceLimits (x_low x_up y_low y_up : Option ℚ) (x_force_limits y_force_limits : Bool)
    (st : MergeState) : MergeState :=
  let st2 :=
    match x_force_limits, x_low, x_up with
    | true, some a, some b => { st with x_low_new := a, x_up_new := b }
    | _, _, _ => st
  match y_force_limits, y_low, y_up with
  | true, some a, some b => { st2 with y_low_new := a, y_up_new := b }
  | _, _, _ => st2

/-- Lines 516-538 of `find_boundaries`: for each log-scale axis, clamp a
non-positive resolved low bound to `MIN_LOG_SCALE` (with a warning), in
source order z, y, x. -/
def finalLogClamps (x_log y_log z_log : Bool) (st : MergeState) : MergeState :=
  let st2 := if st.z_low_new ≤ 0 ∧ z_log = true then { st with z_low_new := MIN_LOG_SCALE } else st
  let st3 := if st2.y_low_new ≤ 0 ∧ y_log = true then { st2 with y_low_new := MIN_LOG_SCALE } else st2
  if st3.x_low_new ≤ 0 ∧ x_log = true then { st3 with x_low_new := MIN_LOG_SCALE } else st3

/-- Lines 540-571 of `find_boundaries`: reserve legend space at the top or
at the bottom of the y range unless the y limits are forced; `none` models
the `ZeroDivisionError` on a degenerate range or a reserve fraction of 1,
and the `math.log10` domain errors. -/
def legendReserve (log10 pow10 : ℚ → ℚ) (reserve_ndc_top reserve_ndc_bottom : Option ℚ)
    (y_log y_force_limits : Bool) (st : MergeState) : Option MergeState :=
  if truthy reserve_ndc_top = true ∧ y_force_limits = false then
    match reserve_ndc_top with
    | none => some st
    | some rt =>
        match (if y_log = true then
                 match plog10 log10 st.y_up_new, plog10 log10 st.y_low_new,
                       plog10 log10 st.y_up_nu with
                 | some a, some b, some c => some (a - b, a - c)
                 | _, _, _ => none
               else some (st.y_up_new - st.y_low_new, st.y_up_new - st.y_up_nu)) with
        | none => none
        | some (y_diff, y_diff_up_user_no_user) =>
            if y_diff = 0 then none
            else if y_diff_up_user_no_user / y_diff < rt then
              if (1 : ℚ) - rt = 0 then none
              else
                let y_diff_with_legend := y_diff / (1 - rt)
                if y_log = true then
                  match plog10 log10 st.y_low_new with
                  | none => none
                  | some b =>
                      some { st with
                        y_up_new := pow10 (b + y_diff_with_legend + (1/10) * y_diff) }
                else
                  some { st with
                    y_up_new := st.y_low_new + y_diff_with_legend + (1/10) * y_diff }
            else some st
  else if truthy reserve_ndc_bottom = true ∧ y_force_limits = false then
    match reserve_ndc_bottom with
    | none => some st
    | some rb =>
        match (if y_log = true then
                 match plog10 log10 st.y_up_new, plog10 log10 st.y_low_new,
                       plog10 log10 st.y_low_nu with
                 | some a, some b, some c => some (a - b, c - b)
                 | _, _, _ => none
               else some (st.y_up_new - st.y_low_new, st.y_low_nu - st.y_low_new)) with
        | none => none
        | some (y_diff, y_diff_low_user_no_user) =>
            if y_diff = 0 then none
            else if y_diff_low_user_no_user / y_diff < rb then
              if (1 : ℚ) - rb = 0 then none
              else
                let y_diff_with_legend := y_diff / (1 - rb)
                if y_log = true then
                  match plog10 log10 st.y_up_new with
                  | none => none
                  | some a =>
                      some { st with
                        y_low_new := pow10 (a - y_diff_with_legend - (1/10) * y_diff) }
                else
                  some { st with
                    y_low_new := st.y_up_new - y_diff_with_legend - (1/10) * y_diff }
            else some st
  else some st

/-- The resolved boundaries returned by `find_boundaries`. -/
structure Boundaries where
  x_low : ℚ
  x_up : ℚ
  y_low : ℚ
  y_up : ℚ
  z_low : ℚ
  z_up : ℚ
deriving DecidableEq

/-- The reconciliation pipeline of `find_boundaries` after the object
loop (lines 460-573), applied to the merged state. -/
def reconcilePipeline (log10 pow10 : ℚ → ℚ) (x_low x_up y_low y_up : Option ℚ)
    (x_log y_log z_log : Bool) (reserve_ndc_top reserve_ndc_bottom : Option ℚ)
    (x_force_limits y_force_limits : Bool) (st : MergeState) : Option Boundaries :=
  let st1 := overrideUserY y_low y_up y_force_limits st
  let st2 := logClampYLow y_log st1
  match padY log10 pow10 y_low y_up reserve_ndc_top reserve_ndc_bottom y_log st2 with
  | none => none
  | some st3 =>
      let st4 := forceLimits x_low x_up y_low y_up x_force_limits y_force_limits st3
      let st5 := finalLogClamps x_log y_log z_log st4
      match legendReserve log10 pow10 reserve_ndc_top reserve_ndc_bottom y_log
              y_force_limits st5 with
      | none => none
      | some st6 =>
          some ⟨st6.x_low_new, st6.x_up_new, st6.y_low_new, st6.y_up_new,
                st6.z_low_new, st6.z_up_new⟩

/-- `find_boundaries` (src/hfplot/root_helpers.py, lines 335-573): swap
wrongly-ordered user bounds, run the object loop, then reconcile.  `none`
models any raised exception along the way. -/
def find_boundaries (log10 pow10 : ℚ → ℚ) (objects : List RootObject)
    (x_low x_up y_low y_up z_low z_up : Option ℚ)
    (x_log y_log z_log : Bool) (reserve_ndc_top reserve_ndc_bottom : Option ℚ)
    (x_force_limits y_force_limits : Bool) (y_account_for_errors : Bool) :
    Option Boundaries :=
  let xp := swapLimits x_low x_up
  let yp := swapLimits y_low y_up
  let zp := swapLimits z_low z_up
  match mergeObjects xp.1 xp.2 yp.1 yp.2 zp.1 zp.2 x_log y_log z_log
          y_account_for_errors objects initMergeState with
  | none => none
  | some st =>
      reconcilePipeline log10 pow10 xp.1 xp.2 yp.1 yp.2 x_log y_log z_log
        reserve_ndc_top reserve_ndc_bottom x_force_limits y_force_limits st

/-- The limit-determining part of `ROOTPlot.__create_frame`
(src/hfplot/plot_spec_root.py, lines 136-200): a shared sibling's limits
replace the own axis limits and force that axis (`x_force_limits` /
`y_force_limits`); `z_log` is not forwarded to `find_boundaries` in the
source, so it is `False` there. -/
def createFrameLimits (log10 pow10 : ℚ → ℚ) (objects : List RootObject)
    (share_x share_y : Option (Option ℚ × Option ℚ))
    (own_x own_y own_z : Option ℚ × Option ℚ)
    (x_log y_log : Bool) (reserve_ndc_top reserve_ndc_bottom : Option ℚ)
    (y_account_for_errors : Bool) : Option Boundaries :=
  let xpair := share_x.getD own_x
  let x_force_limits := share_x.isSome
  let ypair := share_y.getD own_y
  let y_force_limits := share_y.isSome
  find_boundaries log10 pow10 objects xpair.1 xpair.2 ypair.1 ypair.2
    own_z.1 own_z.2 x_log y_log false reserve_ndc_top reserve_ndc_bottom
    x_force_limits y_force_limits y_account_for_errors

/-- `ROOTPlot.__adjust_text_size` (src/hfplot/plot_spec_root.py, lines
207-208): `int(max(1, size * figure_height))`; `int` truncates, which on
values at least 1 is the floor. -/
def adjustTextSize (size fig_height : ℚ) : ℤ :=
  ⌊max 1 (size * fig_height)⌋

/-- The x-axis part of `ROOTPlot.__style_frame` (src/hfplot/plot_spec_root.py,
lines 361-370) restricted to the title and label sizes: with a shared
x axis both are set to 0, otherwise to the adjusted sizes. -/
def styleFrameXSizes (share_x : Bool) (title_size label_size fig_height : ℚ) : ℤ × ℤ :=
  if share_x = true then (0, 0)
  else (adjustTextSize title_size fig_height, adjustTextSize label_size fig_height)

/-! ### Helper lemmas -/

lemma foldl_add_range_eq_sum (f : ℕ → ℚ) :
    ∀ (n : ℕ) (a : ℚ),
      (List.range n).foldl (fun acc i => acc + f i) a = a + ∑ i in Finset.range n, f i := by
  intro n
  induction n with
  | zero => intro a; simp
  | succ n ih =>
      intro a
      rw [List.range_succ, List.foldl_append, ih, Finset.sum_range_succ]
      simp [add_assoc]

lemma foldl_sub_eq_sub_sum (f : ℕ → ℚ) :
    ∀ (l : List ℕ) (a : ℚ),
      l.foldl (fun acc i => acc - f i) a = a - (l.map f).sum := by
  intro l
  induction l with
  | nil => intro a; simp
  | cons x xs ih =>
      intro a
      rw [List.foldl_cons, ih, List.map_cons, List.sum_cons]
      ring

lemma range'_map_sum (f : ℕ → ℚ) :
    ∀ (n s : ℕ), ((List.range' s n).map f).sum = ∑ i in Finset.Ico s (s + n), f i := by
  intro n
  induction n with
  | zero => intro s; simp
  | succ n ih =>
      intro s
      rw [List.range'_succ, List.map_cons, List.sum_cons, ih]
      have hn : s + 1 + n = s + (n + 1) := by omega
      rw [hn]
      exact (Finset.sum_eq_sum_Ico_succ_bot (by omega : s < s + (n + 1)) f).symm

lemma foldl_sub_range'_reverse (f : ℕ → ℚ) (k n : ℕ) :
    ((List.range' (k + 1) (n - 1 - k)).reverse).foldl (fun acc i => acc - f i) 1
      = 1 - ∑ i in Finset.Ico (k + 1) n, f i := by
  rw [foldl_sub_eq_sub_sum, List.map_reverse, List.sum_reverse, range'_map_sum]
  rcases le_or_lt (k + 1) n with h | h
  · have : k + 1 + (n - 1 - k) = n := by omega
    rw [this]
  · have h0 : n - 1 - k = 0 := by omega
    rw [h0]
    rw [Finset.Ico_eq_empty (by omega : ¬ k + 1 < n)]
    simp

lemma addCell_nodup {taken : List ℕ} {cell : ℕ} (h : taken.Nodup) :
    (addCell taken cell).1.Nodup := by
  unfold addCell
  by_cases hm : cell ∈ taken
  · simpa [hm] using h
  · simp only [hm, if_neg, if_false]
    rw [List.nodup_append]
    exact ⟨h, List.nodup_singleton cell, by
      intro a ha hb
      simp only [List.mem_singleton] at hb
      subst hb
      exact hm ha⟩

lemma claimCells_nodup : ∀ (ops taken : List ℕ), taken.Nodup → (claimCells taken ops).Nodup := by
  intro ops
  induction ops with
  | nil => intro t h; simpa [claimCells] using h
  | cons c rest ih =>
      intro t h
      have : claimCells t (c :: rest) = claimCells (addCell t c).1 rest := rfl
      rw [this]
      exact ih _ (addCell_nodup h)

/-! ### Claim theorems -/

/-- Claim C1 (code bug): `__compute_cells` is claimed to record every cell
of the rectangular span; for the valid span `(col_low, row_low, col_up,
row_up) = (0, 0, 1, 0)` on a grid with `n_cols = 2`, `n_rows = 1` the
covered cells are `{0, 1}` (`index = row * n_cols + col`), but the code
only issues a claim for cell `0`: its loops run over
`range(row_up - row_low)` and `range(col_up - col_low)`, which excludes
the top row and the right column of the span. -/
theorem claim_C1 :
    computeCellsList 2 0 0 1 0 = [0]
    ∧ claimCells [] (computeCellsList 2 0 0 1 0) = [0]
    ∧ (0 * 2 + 1) ∉ computeCellsList 2 0 0 1 0 := by decide

/-- Claim C9: claiming an already-claimed cell emits exactly one warning
and leaves `cells_taken` unchanged; claiming a fresh cell appends it
(growing the list by one, no warning); starting from the empty tracker,
any sequence of claims yields a duplicate-free list. -/
theorem claim_C9 (taken : List ℕ) (cell : ℕ) :
    (cell ∈ taken → addCell taken cell = (taken, 1))
    ∧ (cell ∉ taken →
        addCell taken cell = (taken ++ [cell], 0)
        ∧ (addCell taken cell).1.length = taken.length + 1)
    ∧ (∀ ops : List ℕ, (claimCells [] ops).Nodup) := by
  refine ⟨fun h => ?_, fun h => ?_, fun ops => claimCells_nodup ops [] List.nodup_nil⟩
  · simp [addCell, h]
  · constructor
    · simp [addCell, h]
    · simp [addCell, h]

/-- Witness for claim C9 at concrete inputs: claiming cell 5 on `[5]`
warns once and keeps the list; claiming cell 5 on `[]` appends it. -/
theorem claim_C9_witness :
    addCell [5] 5 = ([5], 1) ∧ addCell [] 5 = ([5], 0) :=
  ⟨(claim_C9 [5] 5).1 (by decide), ((claim_C9 [] 5).2.1 (by decide)).1⟩

/-- Claim C10: for a non-degenerate source interval, `map_value` maps the
endpoints `old_min ↦ new_min` and `old_max ↦ new_max`; in the degenerate
case `old_min = old_max` it returns `(new_max - new_min) / 2`, which
equals the midpoint of the target interval exactly when `new_min = 0`. -/
theorem claim_C10 (old_value old_min old_max new_min new_max : ℚ) :
    (old_min ≠ old_max →
        map_value old_min old_min old_max new_min new_max = new_min
        ∧ map_value old_max old_min old_max new_min new_max = new_max)
    ∧ (old_min = old_max →
        map_value old_value old_min old_max new_min new_max = (new_max - new_min) / 2
        ∧ ((new_max - new_min) / 2 = (new_min + new_max) / 2 ↔ new_min = 0)) := by
  constructor
  · intro h
    constructor
    · simp [map_value, h]
    · have hne : old_max - old_min ≠ 0 := sub_ne_zero.mpr (Ne.symm h)
      rw [map_value, if_neg h, mul_comm, mul_div_assoc, div_self hne, mul_one]
      ring
  · intro h
    refine ⟨by simp [map_value, h], ?_⟩
    constructor
    · intro he
      have h2 : new_max - new_min = new_min + new_max := by
        field_simp at he
        linarith
      linarith
    · intro h0
      rw [h0]
      ring

/-- Witness for claim C10 at a concrete non-degenerate interval. -/
theorem claim_C10_witness :
    map_value 0 0 1 2 5 = 2 ∧ map_value 1 0 1 2 5 = 5 :=
  (claim_C10 0 0 1 2 5).1 (by norm_num)

/-- Claim C4: on a 2-column, 1-row grid with default (equal) ratios, the
spans `(0,0,0,0)` and `(1,0,1,0)` resolve to the relative rectangles
`(left, bottom, right, top) = (0, 0, 1/2, 1)` and `(1/2, 0, 1, 1)`; in
general `left` (`bottom`) is the cumulative normalized ratio sum over the
columns (rows) below the span and `right` (`top`) is 1 minus the
cumulative sum over the columns (rows) above it, rows counted from the
bottom. -/
theorem claim_C4 :
    (makePlotSpecRel 2 1 [1, 1] [1] 0 0 0 0 = (0, 0, 1/2, 1)
      ∧ makePlotSpecRel 2 1 [1, 1] [1] 1 0 1 0 = (1/2, 0, 1, 1))
    ∧ ∀ (n_cols n_rows : ℕ) (wr hr : List ℚ) (col_low row_low col_up row_up : ℕ),
        makePlotSpecRel n_cols n_rows wr hr col_low row_low col_up row_up =
          (∑ i in Finset.range col_low, wr.getD i 0 / wr.sum,
           ∑ i in Finset.range row_low, hr.getD i 0 / hr.sum,
           1 - ∑ i in Finset.Ico (col_up + 1) n_cols, wr.getD i 0 / wr.sum,
           1 - ∑ i in Finset.Ico (row_up + 1) n_rows, hr.getD i 0 / hr.sum) := by
  have key : ∀ (n_cols n_rows : ℕ) (wr hr : List ℚ) (col_low row_low col_up row_up : ℕ),
      makePlotSpecRel n_cols n_rows wr hr col_low row_low col_up row_up =
        (∑ i in Finset.range col_low, wr.getD i 0 / wr.sum,
         ∑ i in Finset.range row_low, hr.getD i 0 / hr.sum,
         1 - ∑ i in Finset.Ico (col_up + 1) n_cols, wr.getD i 0 / wr.sum,
         1 - ∑ i in Finset.Ico (row_up + 1) n_rows, hr.getD i 0 / hr.sum) := by
    intro n_cols n_rows wr hr col_low row_low col_up row_up
    simp only [makePlotSpecRel]
    rw [foldl_add_range_eq_sum, foldl_add_range_eq_sum,
        foldl_sub_range'_reverse, foldl_sub_range'_reverse]
    simp
  refine ⟨⟨?_, ?_⟩, key⟩
  · rw [key]
    norm_num [Finset.sum_Ico_eq_sum_range]
  · rw [key]
    norm_num [Finset.sum_Ico_eq_sum_range, Finset.sum_range_succ]

/-- Claim C5 counterexample: the claim asserts that every sequence of
pairs of the wrong length fails with the length-mismatch error; the empty
sequence (length 0 differs from 3) instead raises `IndexError` when the
dispatch probes `margins[0]`. -/
theorem claim_C5_counterexample :
    make_margins (MarginsArg.nested []) 3 = Except.error MarginErr.indexError
    ∧ MarginErr.isLengthMismatch MarginErr.indexError = false :=
  ⟨rfl, rfl⟩

/-- Claim C5 (amended): for positive `n`, a scalar broadcasts to `n`
copies of its pair, a flat two-element pair broadcasts to `n` copies of
itself, a sequence of exactly `n` pairs passes through unchanged, and a
*non-empty* sequence of pairs of any other length fails with the
length-mismatch error reporting actual versus expected length (the empty
sequence instead raises an index error, see the counterexample). -/
theorem claim_C5 (n : ℕ) (hn : 0 < n) (s a b : ℚ) (l : List (List ℚ)) :
    make_margins (MarginsArg.scalar s) n = Except.ok (List.replicate n [s, s])
    ∧ make_margins (MarginsArg.flat [a, b]) n = Except.ok (List.replicate n [a, b])
    ∧ (l ≠ [] → (∀ m, m ∈ l → m.length = 2) →
        ((l.length = n → make_margins (MarginsArg.nested l) n = Except.ok l)
         ∧ (l.length ≠ n →
             make_margins (MarginsArg.nested l) n =
               Except.error (MarginErr.lengthMismatch l.length n)))) := by
  refine ⟨rfl, rfl, ?_⟩
  intro hne hmem
  match l, hne with
  | m :: t, _ =>
      constructor
      · intro hlen
        have hany : (m :: t).any (fun x => decide (x.length ≠ 2)) = false := by
          rw [List.any_eq_false]
          intro x hx
          simp [hmem x hx]
        simp only [make_margins]
        rw [if_neg (by simp [hlen]), hany]
        simp
      · intro hlen
        simp only [make_margins]
        rw [if_pos hlen]

/-- Witness for claim C5 at `n = 3`: the scalar, the pass-through case and
the length-mismatch case from the specification. -/
theorem claim_C5_witness :
    make_margins (MarginsArg.scalar (1/20)) 3 = Except.ok (List.replicate 3 [1/20, 1/20])
    ∧ make_margins (MarginsArg.nested [[0, 0], [0, 0], [1/10, 1/10]]) 3 =
        Except.ok [[0, 0], [0, 0], [1/10, 1/10]]
    ∧ make_margins (MarginsArg.nested [[0, 0]]) 3 =
        Except.error (MarginErr.lengthMismatch 1 3) :=
  ⟨(claim_C5 3 (by norm_num) (1/20) 0 0 []).1,
   ((claim_C5 3 (by norm_num) 0 0 0 [[0, 0], [0, 0], [1/10, 1/10]]).2.2 (by decide)
      (by decide)).1 (by decide),
   ((claim_C5 3 (by norm_num) 0 0 0 [[0, 0]]).2.2 (by decide) (by decide)).2 (by decide)⟩

lemma definePlotSpan_arity (st : FigureState) (args : List ℤ)
    (h0 : args.length ≠ 0) (h2 : args.length ≠ 2) (h4 : args.length ≠ 4) :
    definePlotSpan st args =
      .error (if args.length = 1 then DPError.unpackMismatch else DPError.badArity) := by
  match args with
  | [] => exact absurd rfl h0
  | [a] => rfl
  | [a, b] => exact absurd rfl h2
  | [a, b, c] => rfl
  | [a, b, c, d] => exact absurd rfl h4
  | a :: b :: c :: d :: e :: rest =>
      have hgt : (a :: b :: c :: d :: e :: rest).length = 3 ∨
          4 < (a :: b :: c :: d :: e :: rest).length := by
        right
        simp only [List.length_cons]
        omega
      have h1 : ¬(a :: b :: c :: d :: e :: rest).length = 1 := by simp
      simp only [definePlotSpan, if_pos hgt, if_neg h1]

/-- Claim C7: on a multi-cell figure, `define_plot` called with a
positional argument count other than 0, 2 or 4 fails with a fatal
`ValueError` (the explicit arity check for 3 or more than 4 arguments,
the tuple-unpacking `ValueError` for a single argument) and never
produces a new figure state, i.e. no plot region is created. -/
theorem claim_C7 (st : FigureState) (args : List ℤ)
    (hgrid : ¬(st.n_cols = 1 ∧ st.n_rows = 1 ∧ st.current_plot_spec.isSome = true))
    (h0 : args.length ≠ 0) (h2 : args.length ≠ 2) (h4 : args.length ≠ 4) :
    definePlot st args =
      .error (if args.length = 1 then DPError.unpackMismatch else DPError.badArity)
    ∧ DPError.isValueError
        (if args.length = 1 then DPError.unpackMismatch else DPError.badArity) = true := by
  constructor
  · unfold definePlot
    rw [if_neg hgrid, definePlotSpan_arity st args h0 h2 h4]
  · by_cases h : args.length = 1 <;> simp [h, DPError.isValueError]

/-- Witness for claim C7 at a concrete input: one positional argument on
a 2x1 figure fails with the unpacking `ValueError`. -/
theorem claim_C7_witness :
    definePlot (mkFigure 2 1) [0] = Except.error DPError.unpackMismatch
    ∧ DPError.isValueError DPError.unpackMismatch = true := by
  have h := claim_C7 (mkFigure 2 1) [0] (by decide) (by decide) (by decide) (by decide)
  simpa using h

/-- Claim C8 counterexample: on a 1x1 figure the sole cell is claimed at
construction time, so every cell of the grid is taken; yet `define_plot()`
does not raise the no-free-cells error — the 1x1 short-circuit returns
the existing plot spec unchanged. -/
theorem claim_C8_counterexample :
    (mkFigure 1 1).n_cols * (mkFigure 1 1).n_rows = 1
    ∧ (mkFigure 1 1).cells_taken = [0]
    ∧ definePlot (mkFigure 1 1) [] = Except.ok (mkFigure 1 1) := by
  refine ⟨rfl, rfl, rfl⟩

/-- Claim C8 (amended): outside the 1x1 short-circuit (a single-cell
figure auto-defines its region at construction and `define_plot()` then
returns it unchanged), `define_plot()` with no span arguments fails with
the fatal no-free-cells error when every cell is claimed, and otherwise
picks the unclaimed cell with the lowest index as a single-cell span and
claims exactly that cell. -/
theorem claim_C8 (st : FigureState)
    (hgrid : ¬(st.n_cols = 1 ∧ st.n_rows = 1 ∧ st.current_plot_spec.isSome = true)) :
    ((∀ c, c < st.n_cols * st.n_rows → c ∈ st.cells_taken) →
        definePlot st [] = .error DPError.noFreeCells)
    ∧ (∀ c rest, freeCells st = c :: rest →
        (∀ d, d ∈ freeCells st → c ≤ d)
        ∧ definePlotSpan st [] =
            .ok (c % st.n_cols, c / st.n_cols, c % st.n_cols, c / st.n_cols)
        ∧ ∃ st2, definePlot st [] = Except.ok st2
            ∧ st2.cells_taken = st.cells_taken ++ [c]) := by
  constructor
  · intro hall
    have hfree : freeCells st = [] := by
      rw [freeCells, List.filter_eq_nil_iff]
      intro a ha
      simp only [List.mem_range] at ha
      simp [hall a ha]
    unfold definePlot
    rw [if_neg hgrid]
    have hspan : definePlotSpan st [] = .error .noFreeCells := by
      simp only [definePlotSpan, hfree]
    rw [hspan]
  · intro c rest hc
    have hcmem : c ∈ freeCells st := by
      rw [hc]
      exact List.mem_cons_self c rest
    have hclt : c < st.n_cols * st.n_rows ∧ c ∉ st.cells_taken := by
      have h2 := hcmem
      rw [freeCells, List.mem_filter, List.mem_range] at h2
      simpa using h2
    have hpos : 0 < st.n_cols := by
      rcases Nat.eq_zero_or_pos st.n_cols with h | h
      · exfalso
        have := hclt.1
        rw [h] at this
        simp at this
      · exact h
    have hmodlt : c % st.n_cols < st.n_cols := Nat.mod_lt _ hpos
    have hdivlt : c / st.n_cols < st.n_rows := by
      rw [Nat.div_lt_iff_lt_mul hpos]
      calc c < st.n_cols * st.n_rows := hclt.1
        _ = st.n_rows * st.n_cols := Nat.mul_comm _ _
    have hspan : definePlotSpan st [] =
        .ok (c % st.n_cols, c / st.n_cols, c % st.n_cols, c / st.n_cols) := by
      simp only [definePlotSpan, hc]
      rw [if_neg (by
            push_neg
            constructor <;> positivity)]
      rw [if_neg (by
            push_neg
            constructor <;> [exact_mod_cast hdivlt; exact_mod_cast hmodlt])]
      simp only [Int.toNat_natCast]
    refine ⟨?_, hspan, ?_⟩
    · intro d hd
      have hpw : (freeCells st).Pairwise (· < ·) :=
        List.Pairwise.sublist (List.filter_sublist _) (List.pairwise_lt_range _)
      rw [hc] at hd hpw
      rcases List.mem_cons.mp hd with h | h
      · exact le_of_eq h.symm
      · exact le_of_lt ((List.pairwise_cons.mp hpw).1 d h)
    · have hcells : computeCellsList st.n_cols (c % st.n_cols) (c / st.n_cols)
          (c % st.n_cols) (c / st.n_cols) = [c] := by
        have hll : c / st.n_cols * st.n_cols + c % st.n_cols = c := Nat.div_add_mod' c _
        simp [computeCellsList, hll]
      have hclaim : claimCells st.cells_taken [c] = st.cells_taken ++ [c] := by
        simp [claimCells, addCell, hclt.2]
      refine ⟨{ st with
          cells_taken := claimCells st.cells_taken
            (computeCellsList st.n_cols (c % st.n_cols) (c / st.n_cols)
              (c % st.n_cols) (c / st.n_cols))
          plot_specs := st.plot_specs ++
            [makePlotSpec st (c % st.n_cols) (c / st.n_cols)
              (c % st.n_cols) (c / st.n_cols)]
          current_plot_spec := some (makePlotSpec st (c % st.n_cols) (c / st.n_cols)
            (c % st.n_cols) (c / st.n_cols)) }, ?_, ?_⟩
      · unfold definePlot
        rw [if_neg hgrid, hspan]
      · simp only [hcells, hclaim]

/-- Witness for claim C8 at a concrete figure: on a fresh 2x1 figure the
lowest free cell is 0 and `define_plot()` claims exactly cell 0. -/
theorem claim_C8_witness :
    definePlotSpan (mkFigure 2 1) [] = .ok (0, 0, 0, 0)
    ∧ ∃ st2, definePlot (mkFigure 2 1) [] = Except.ok st2
        ∧ st2.cells_taken = (mkFigure 2 1).cells_taken ++ [0] := by
  have h := (claim_C8 (mkFigure 2 1) (by decide)).2 0 [1] (by decide)
  exact ⟨h.2.1, h.2.2⟩

lemma swapLimits_of_le {u : ℚ} (lo : Option ℚ) (hns : ∀ v, lo = some v → v ≤ u) :
    swapLimits lo (some u) = (lo, some u) := by
  match lo with
  | none => rfl
  | some v =>
      have : ¬ u < v := not_lt.mpr (hns v rfl)
      simp [swapLimits, this]

lemma swapLimits_some_of_le {lo hi : ℚ} (h : lo ≤ hi) :
    swapLimits (some lo) (some hi) = (some lo, some hi) := by
  simp [swapLimits, not_lt.mpr h]

lemma legendReserve_none (log10 pow10 : ℚ → ℚ) (y_log y_force_limits : Bool)
    (st : MergeState) :
    legendReserve log10 pow10 none none y_log y_force_limits st = some st := rfl

lemma overrideUserY_x (y_low y_up : Option ℚ) (y_force_limits : Bool) (st : MergeState) :
    (overrideUserY y_low y_up y_force_limits st).x_low_new = st.x_low_new
    ∧ (overrideUserY y_low y_up y_force_limits st).x_up_new = st.x_up_new := by
  unfold overrideUserY
  dsimp only
  constructor <;> (split <;> split <;> rfl)

lemma overrideUserY_nu (y_low y_up : Option ℚ) (y_force_limits : Bool) (st : MergeState) :
    (overrideUserY y_low y_up y_force_limits st).y_up_nu = st.y_up_nu
    ∧ (overrideUserY y_low y_up y_force_limits st).y_low_nu = st.y_low_nu := by
  unfold overrideUserY
  dsimp only
  constructor <;> (split <;> split <;> rfl)

lemma logClampYLow_other (y_log : Bool) (st : MergeState) :
    (logClampYLow y_log st).x_low_new = st.x_low_new
    ∧ (logClampYLow y_log st).x_up_new = st.x_up_new
    ∧ (logClampYLow y_log st).y_up_new = st.y_up_new
    ∧ (logClampYLow y_log st).y_up_nu = st.y_up_nu := by
  unfold logClampYLow
  dsimp only
  refine ⟨?_, ?_, ?_, ?_⟩ <;> (split <;> (try split) <;> (try split) <;> rfl)

lemma padY_x {log10 pow10 : ℚ → ℚ} {y_low y_up rt rb : Option ℚ} {y_log : Bool}
    {st st' : MergeState}
    (h : padY log10 pow10 y_low y_up rt rb y_log st = some st') :
    st'.x_low_new = st.x_low_new ∧ st'.x_up_new = st.x_up_new
    ∧ st'.y_up_nu = st.y_up_nu ∧ st'.y_low_nu = st.y_low_nu
    ∧ st'.adjust_y_limits = st.adjust_y_limits := by
  unfold padY at h
  split at h
  · split at h
    · exact absurd h (by simp)
    · rename_i y_diff _
      split at h
      · exact absurd h (by simp)
      · rename_i st2 hst2
        have hst2p : st2.x_low_new = st.x_low_new ∧ st2.x_up_new = st.x_up_new
            ∧ st2.y_up_nu = st.y_up_nu ∧ st2.y_low_nu = st.y_low_nu
            ∧ st2.y_up_new = st.y_up_new
            ∧ st2.adjust_y_limits = st.adjust_y_limits := by
          split at hst2
          · split at hst2
            · split at hst2
              · exact absurd hst2 (by simp)
              · injection hst2 with hst2
                subst hst2
                exact ⟨rfl, rfl, rfl, rfl, rfl, rfl⟩
            · injection hst2 with hst2
              subst hst2
              exact ⟨rfl, rfl, rfl, rfl, rfl, rfl⟩
          · injection hst2 with hst2
            subst hst2
            exact ⟨rfl, rfl, rfl, rfl, rfl, rfl⟩
        split at h
        · split at h
          · split at h
            · exact absurd h (by simp)
            · injection h with h
              subst h
              exact ⟨hst2p.1, hst2p.2.1, hst2p.2.2.1, hst2p.2.2.2.1, hst2p.2.2.2.2.2⟩
          · injection h with h
            subst h
            exact ⟨hst2p.1, hst2p.2.1, hst2p.2.2.1, hst2p.2.2.2.1, hst2p.2.2.2.2.2⟩
        · injection h with h
          subst h
          exact ⟨hst2p.1, hst2p.2.1, hst2p.2.2.1, hst2p.2.2.2.1, hst2p.2.2.2.2.2⟩
  · injection h with h
    subst h
    exact ⟨rfl, rfl, rfl, rfl, rfl⟩

lemma padY_yup_some {log10 pow10 : ℚ → ℚ} {y_low rt rb : Option ℚ} {u : ℚ} {y_log : Bool}
    {st st' : MergeState}
    (h : padY log10 pow10 y_low (some u) rt rb y_log st = some st') :
    st'.y_up_new = st.y_up_new := by
  unfold padY at h
  split at h
  · split at h
    · exact absurd h (by simp)
    · split at h
      · exact absurd h (by simp)
      · rename_i st2 hst2
        have hst2p : st2.y_up_new = st.y_up_new := by
          split at hst2
          · split at hst2
            · split at hst2
              · exact absurd hst2 (by simp)
              · injection hst2 with hst2
                subst hst2
                rfl
            · injection hst2 with hst2
              subst hst2
              rfl
          · injection hst2 with hst2
            subst hst2
            rfl
        have hnone : ¬((some u : Option ℚ) = none ∧ rt = none) := by simp
        rw [if_neg hnone] at h
        injection h with h
        subst h
        exact hst2p
  · injection h with h
    subst h
    rfl

lemma forceLimits_y_of_not_forced (x_low x_up y_low y_up : Option ℚ) (x_force_limits : Bool)
    (st : MergeState) :
    (forceLimits x_low x_up y_low y_up x_force_limits false st).y_up_new = st.y_up_new
    ∧ (forceLimits x_low x_up y_low y_up x_force_limits false st).y_low_new = st.y_low_new
    ∧ (forceLimits x_low x_up y_low y_up x_force_limits false st).y_up_nu = st.y_up_nu := by
  unfold forceLimits
  dsimp only
  refine ⟨?_, ?_, ?_⟩ <;> (split <;> rfl)

lemma forceLimits_x_forced (x_low x_up : ℚ) (y_low y_up : Option ℚ) (y_force_limits : Bool)
    (st : MergeState) :
    (forceLimits (some x_low) (some x_up) y_low y_up true y_force_limits st).x_low_new = x_low
    ∧ (forceLimits (some x_low) (some x_up) y_low y_up true y_force_limits st).x_up_new = x_up := by
  unfold forceLimits
  dsimp only
  constructor <;> (split <;> rfl)

lemma finalLogClamps_x (x_log y_log z_log : Bool) (st : MergeState)
    (hx : x_log = false ∨ 0 < st.x_low_new) :
    (finalLogClamps x_log y_log z_log st).x_low_new = st.x_low_new
    ∧ (finalLogClamps x_log y_log z_log st).x_up_new = st.x_up_new := by
  unfold finalLogClamps
  dsimp only
  constructor <;>
    (split <;> split <;> split <;>
      ((try rfl) <;>
       (rename_i hfin
        exfalso
        rcases hx with h | h
        · rw [h] at hfin
          simp at hfin
        · exact absurd hfin.1 (not_le.mpr h))))

lemma finalLogClamps_yup (x_log y_log z_log : Bool) (st : MergeState) :
    (finalLogClamps x_log y_log z_log st).y_up_new = st.y_up_new
    ∧ (finalLogClamps x_log y_log z_log st).y_up_nu = st.y_up_nu := by
  unfold finalLogClamps
  dsimp only
  constructor <;> (split <;> split <;> split <;> rfl)

lemma MIN_LOG_SCALE_pos : 0 < MIN_LOG_SCALE := by
  norm_num [MIN_LOG_SCALE]

lemma finalLogClamps_ylog_pos (x_log z_log : Bool) (st : MergeState) :
    0 < (finalLogClamps x_log true z_log st).y_low_new := by
  unfold finalLogClamps
  dsimp only
  split <;> split <;> split <;>
    first
      | exact MIN_LOG_SCALE_pos
      | (rename_i hy2 hx
         exact not_le.mp (fun hle => hy2 ⟨hle, rfl⟩))

lemma legendReserve_x {log10 pow10 : ℚ → ℚ} {rt rb : Option ℚ} {y_log y_force_limits : Bool}
    {st st' : MergeState}
    (h : legendReserve log10 pow10 rt rb y_log y_force_limits st = some st') :
    st'.x_low_new = st.x_low_new ∧ st'.x_up_new = st.x_up_new := by
  unfold legendReserve at h
  split at h
  · split at h
    · injection h with h
      subst h
      exact ⟨rfl, rfl⟩
    · split at h
      · exact absurd h (by simp)
      · split at h
        · exact absurd h (by simp)
        · split at h
          · split at h
            · exact absurd h (by simp)
            · split at h
              · split at h
                · exact absurd h (by simp)
                · injection h with h
                  subst h
                  exact ⟨rfl, rfl⟩
              · injection h with h
                subst h
                exact ⟨rfl, rfl⟩
          · injection h with h
            subst h
            exact ⟨rfl, rfl⟩
  · split at h
    · split at h
      · injection h with h
        subst h
        exact ⟨rfl, rfl⟩
      · split at h
        · exact absurd h (by simp)
        · split at h
          · exact absurd h (by simp)
          · split at h
            · split at h
              · exact absurd h (by simp)
              · split at h
                · split at h
                  · exact absurd h (by simp)
                  · injection h with h
                    subst h
                    exact ⟨rfl, rfl⟩
                · injection h with h
                  subst h
                  exact ⟨rfl, rfl⟩
            · injection h with h
              subst h
              exact ⟨rfl, rfl⟩
    · injection h with h
      subst h
      exact ⟨rfl, rfl⟩

lemma fbTH1_yup_fixed {h : Hist1D} {x_low x_up y_low : Option ℚ} {u : ℚ}
    {x_log y_log acc : Bool} {e : ℚ × ℚ × ℚ × ℚ}
    (he : fbTH1 h x_low x_up y_low (some u) x_log y_log acc = some e) :
    e.2.2.2 = u := by
  unfold fbTH1 at he
  cases y_low with
  | some v =>
      dsimp only at he
      injection he with he
      subst he
      rfl
  | none =>
      dsimp only at he
      injection he with he
      subst he
      rfl

lemma fbTH1_xup_fixed {h : Hist1D} {x_low y_low y_up : Option ℚ} {u : ℚ}
    {x_log y_log acc : Bool} {e : ℚ × ℚ × ℚ × ℚ}
    (he : fbTH1 h x_low (some u) y_low y_up x_log y_log acc = some e) :
    e.2.1 = u := by
  unfold fbTH1 at he
  cases y_low <;> cases y_up <;>
    (dsimp only at he
     first
       | (injection he with he
          subst he
          rfl)
       | (split at he <;>
            first
              | (injection he with he
                 subst he
                 rfl)
              | exact absurd he (by simp)))

lemma graphStepYs_yup_some {y_low : Option ℚ} {u : ℚ} (st : ℚ × ℚ × ℚ × ℚ) (yt : ℚ) :
    (graphStepYs y_low (some u) st yt).2.2.2 = st.2.2.2 := by
  unfold graphStepYs
  dsimp only
  rw [if_neg (by simp)]
  split <;> rfl

lemma graphStep_yup_some {x_low x_up y_low : Option ℚ} {u : ℚ} (st : ℚ × ℚ × ℚ × ℚ)
    (p : ℚ × ℚ) : (graphStep x_low x_up y_low (some u) st p).2.2.2 = st.2.2.2 := by
  rcases x_low with _ | v <;> rcases x_up with _ | w <;>
    (unfold graphStep
     dsimp only) <;>
    (try split) <;>
    (try split) <;>
    first
      | rfl
      | exact graphStepYs_yup_some _ _

lemma foldl_graphStep_yup {x_low x_up y_low : Option ℚ} {u : ℚ} :
    ∀ (pts : List (ℚ × ℚ)) (st : ℚ × ℚ × ℚ × ℚ),
      (pts.foldl (graphStep x_low x_up y_low (some u)) st).2.2.2 = st.2.2.2 := by
  intro pts
  induction pts with
  | nil => intro st; rfl
  | cons p rest ih =>
      intro st
      rw [List.foldl_cons, ih, graphStep_yup_some]

lemma fbTGraph_yup_fixed {pts : List (ℚ × ℚ)} {x_low x_up y_low : Option ℚ} {u : ℚ}
    {e : ℚ × ℚ × ℚ × ℚ} (he : fbTGraph pts x_low x_up y_low (some u) = some e) :
    e.2.2.2 = u := by
  unfold fbTGraph at he
  match pts, he with
  | [], he => exact absurd he (by simp)
  | p :: rest, he =>
      dsimp only at he
      injection he with he
      subst he
      rw [foldl_graphStep_yup]
      rfl

lemma fbTH2_yup_fixed {h2 : Hist2D} {x_low x_up y_low z_low z_up : Option ℚ} {u : ℚ}
    {x_log y_log z_log : Bool} {e : ℚ × ℚ × ℚ × ℚ × ℚ × ℚ}
    (he : fbTH2 h2 x_low x_up y_low (some u) z_low z_up x_log y_log z_log = some e) :
    e.2.2.2.1 = u := by
  unfold fbTH2 at he
  split at he
  · exact absurd he (by simp)
  · split at he
    · exact absurd he (by simp)
    · rename_i hy
      dsimp only at he
      injection he with he
      subst he
      have h3 := fbTH1_xup_fixed hy
      exact h3

lemma mergeObjects_yup_inv {x_low x_up y_low z_low z_up : Option ℚ} {u : ℚ}
    {x_log y_log z_log acc : Bool} :
    ∀ (objects : List RootObject) (st st' : MergeState),
      mergeObjects x_low x_up y_low (some u) z_low z_up x_log y_log z_log acc objects st
        = some st' →
      (FLOAT_INFO_MIN ≤ st.y_up_new ∧ st.y_up_new ≤ max FLOAT_INFO_MIN u
        ∧ FLOAT_INFO_MIN ≤ st.y_up_nu) →
      FLOAT_INFO_MIN ≤ st'.y_up_new ∧ st'.y_up_new ≤ max FLOAT_INFO_MIN u
        ∧ FLOAT_INFO_MIN ≤ st'.y_up_nu := by
  intro objects
  induction objects with
  | nil =>
      intro st st' h hinv
      injection h with h
      subst h
      exact hinv
  | cons obj rest ih =>
      intro st st' h hinv
      unfold mergeObjects at h
      cases obj with
      | unknown => exact ih st st' h hinv
      | effi => exact ih st st' h hinv
      | hist1d h1 =>
          dsimp only at h
          split at h
          · exact absurd h (by simp)
          · rename_i e heq
            split at h
            · exact absurd h (by simp)
            · rename_i enu hequ
              refine ih _ st' h ⟨?_, ?_, ?_⟩
              · exact le_trans hinv.1 (le_max_right _ _)
              · show max e.2.2.2 st.y_up_new ≤ max FLOAT_INFO_MIN u
                rw [fbTH1_yup_fixed heq]
                exact max_le (le_max_right _ _) hinv.2.1
              · exact le_trans hinv.2.2 (le_max_right _ _)
      | func f =>
          dsimp only at h
          refine ih _ st' h ⟨?_, ?_, ?_⟩
          · exact le_trans hinv.1 (le_max_right _ _)
          · show max (fbTF1 f x_low x_up y_low (some u)).2.2.2 st.y_up_new
              ≤ max FLOAT_INFO_MIN u
            exact max_le (le_max_right _ _) hinv.2.1
          · exact le_trans hinv.2.2 (le_max_right _ _)
      | graph pts =>
          dsimp only at h
          split at h
          · exact ih st st' h hinv
          · rename_i e heq
            split at h
            · exact absurd h (by simp)
            · rename_i enu hequ
              refine ih _ st' h ⟨?_, ?_, ?_⟩
              · exact le_trans hinv.1 (le_max_right _ _)
              · show max e.2.2.2 st.y_up_new ≤ max FLOAT_INFO_MIN u
                rw [fbTGraph_yup_fixed heq]
                exact max_le (le_max_right _ _) hinv.2.1
              · exact le_trans hinv.2.2 (le_max_right _ _)
      | hist2d h2 =>
          dsimp only at h
          split at h
          · exact absurd h (by simp)
          · rename_i e heq
            split at h
            · exact absurd h (by simp)
            · rename_i enu hequ
              refine ih _ st' h ⟨?_, ?_, ?_⟩
              · exact le_trans hinv.1 (le_max_right _ _)
              · show max e.2.2.2.1 st.y_up_new ≤ max FLOAT_INFO_MIN u
                rw [fbTH2_yup_fixed heq]
                exact max_le (le_max_right _ _) hinv.2.1
              · exact le_trans hinv.2.2 (le_max_right _ _)

lemma overrideUserY_yup_eq {y_low : Option ℚ} {u : ℚ} {st : MergeState}
    (hle : st.y_up_new ≤ max FLOAT_INFO_MIN u) (hF : FLOAT_INFO_MIN ≤ st.y_up_nu)
    (hu : u < st.y_up_nu) :
    (overrideUserY y_low (some u) false st).y_up_new = st.y_up_nu := by
  unfold overrideUserY
  dsimp only
  by_cases hlt : st.y_up_new < st.y_up_nu
  · have hc1 : (some u : Option ℚ).isSome = true ∧ st.y_up_new < st.y_up_nu
        ∧ (false : Bool) = false := ⟨rfl, hlt, rfl⟩
    rw [if_pos hc1]
    split <;> rfl
  · have hc1 : ¬((some u : Option ℚ).isSome = true ∧ st.y_up_new < st.y_up_nu
        ∧ (false : Bool) = false) := fun hcond => hlt hcond.2.1
    rw [if_neg hc1]
    have h1 : st.y_up_new ≤ st.y_up_nu := hle.trans (max_le hF (le_of_lt hu))
    have heq : st.y_up_new = st.y_up_nu := le_antisymm h1 (not_lt.mp hlt)
    split
    · exact heq
    · exact heq

lemma legendReserve_ylow_pos {log10 pow10 : ℚ → ℚ} {rt rb : Option ℚ}
    {y_force_limits : Bool} {st st' : MergeState} (hpow : ∀ q, 0 < pow10 q)
    (h : legendReserve log10 pow10 rt rb true y_force_limits st = some st')
    (hpos : 0 < st.y_low_new) : 0 < st'.y_low_new := by
  unfold legendReserve at h
  repeat'
    first
      | split at h
      | dsimp only at h
  all_goals
    first
      | (injection h with h
         subst h
         first
           | exact hpos
           | exact hpow _
           | (exfalso; simp_all))
      | exact absurd h (by simp)
      | (exfalso; simp_all)

lemma reconcilePipeline_yup {log10 pow10 : ℚ → ℚ} {x_low x_up y_low : Option ℚ} {u : ℚ}
    {x_log y_log z_log x_force_limits : Bool} {st : MergeState} {r : Boundaries}
    (hinv : FLOAT_INFO_MIN ≤ st.y_up_new ∧ st.y_up_new ≤ max FLOAT_INFO_MIN u
      ∧ FLOAT_INFO_MIN ≤ st.y_up_nu)
    (hu : u < st.y_up_nu)
    (h : reconcilePipeline log10 pow10 x_low x_up y_low (some u) x_log y_log z_log
          none none x_force_limits false st = some r) :
    r.y_up = st.y_up_nu := by
  unfold reconcilePipeline at h
  dsimp only at h
  split at h
  · exact absurd h (by simp)
  · rename_i st3 hpad
    rw [legendReserve_none] at h
    dsimp only at h
    injection h with h
    subst h
    show (finalLogClamps x_log y_log z_log
      (forceLimits x_low x_up y_low (some u) x_force_limits false st3)).y_up_new
      = st.y_up_nu
    rw [(finalLogClamps_yup _ _ _ _).1,
        (forceLimits_y_of_not_forced _ _ _ _ _ _).1,
        padY_yup_some hpad,
        (logClampYLow_other _ _).2.2.1]
    exact overrideUserY_yup_eq hinv.2.1 hinv.2.2 hu

lemma reconcilePipeline_ylog_pos {log10 pow10 : ℚ → ℚ} {x_low x_up y_low y_up : Option ℚ}
    {x_log z_log x_force_limits y_force_limits : Bool} {rt rb : Option ℚ}
    {st : MergeState} {r : Boundaries} (hpow : ∀ q, 0 < pow10 q)
    (h : reconcilePipeline log10 pow10 x_low x_up y_low y_up x_log true z_log rt rb
          x_force_limits y_force_limits st = some r) :
    0 < r.y_low := by
  unfold reconcilePipeline at h
  dsimp only at h
  split at h
  · exact absurd h (by simp)
  · rename_i st3 hpad
    split at h
    · exact absurd h (by simp)
    · rename_i st6 hleg
      injection h with h
      subst h
      exact legendReserve_ylow_pos hpow hleg (finalLogClamps_ylog_pos _ _ _)

lemma reconcilePipeline_x_forced {log10 pow10 : ℚ → ℚ} {lo hi : ℚ}
    {y_low y_up : Option ℚ} {x_log y_log z_log y_force_limits : Bool}
    {rt rb : Option ℚ} {st : MergeState} {r : Boundaries}
    (hx : x_log = false ∨ 0 < lo)
    (h : reconcilePipeline log10 pow10 (some lo) (some hi) y_low y_up x_log y_log z_log
          rt rb true y_force_limits st = some r) :
    r.x_low = lo ∧ r.x_up = hi := by
  unfold reconcilePipeline at h
  dsimp only at h
  split at h
  · exact absurd h (by simp)
  · rename_i st3 hpad
    split at h
    · exact absurd h (by simp)
    · rename_i st6 hleg
      injection h with h
      subst h
      have hforce := forceLimits_x_forced lo hi y_low y_up y_force_limits st3
      have hx4 : x_log = false ∨
          0 < (forceLimits (some lo) (some hi) y_low y_up true y_force_limits
                st3).x_low_new := by
        rcases hx with h1 | h1
        · exact Or.inl h1
        · exact Or.inr (by rw [hforce.1]; exact h1)
      have hfc := finalLogClamps_x x_log y_log z_log _ hx4
      have hlx := legendReserve_x hleg
      constructor
      · show st6.x_low_new = lo
        rw [hlx.1, hfc.1, hforce.1]
      · show st6.x_up_new = hi
        rw [hlx.2, hfc.2, hforce.2]

/-- Claim C3: whenever `find_boundaries` returns with `y_log = True`, the
resolved `y_low` is strictly positive: any non-positive low bound
(including a user-forced one) is clamped to `MIN_LOG_SCALE` by the final
log clamp, and the only later update (bottom legend reserve) raises 10 to
a power, which is positive (hypothesis `hpow`, true of real
exponentiation, which the abstract `pow10` parameter models). -/
theorem claim_C3 (log10 pow10 : ℚ → ℚ) (objects : List RootObject)
    (x_low x_up y_low y_up z_low z_up : Option ℚ) (x_log z_log : Bool)
    (reserve_ndc_top reserve_ndc_bottom : Option ℚ)
    (x_force_limits y_force_limits y_account_for_errors : Bool) (r : Boundaries)
    (hpow : ∀ q : ℚ, 0 < pow10 q)
    (h : find_boundaries log10 pow10 objects x_low x_up y_low y_up z_low z_up
          x_log true z_log reserve_ndc_top reserve_ndc_bottom
          x_force_limits y_force_limits y_account_for_errors = some r) :
    0 < r.y_low := by
  unfold find_boundaries at h
  dsimp only at h
  split at h
  · exact absurd h (by simp)
  · exact reconcilePipeline_ylog_pos hpow h

/-- Witness for claim C3 at a concrete input: no objects, `y_log = True`,
`pow10` the constant-one function; the resolved `y_low` is 1. -/
theorem claim_C3_witness :
    0 < (Boundaries.y_low ⟨FLOAT_INFO_MAX, FLOAT_INFO_MIN, 1, 1,
          FLOAT_INFO_MAX, FLOAT_INFO_MIN⟩) :=
  claim_C3 (fun _ => 0) (fun _ => 1) [] none none none none none none false false
    none none false false true
    ⟨FLOAT_INFO_MAX, FLOAT_INFO_MIN, 1, 1, FLOAT_INFO_MAX, FLOAT_INFO_MIN⟩
    (fun _ => one_pos) (by with_unfolding_all rfl)

/-- Claim C2 counterexample: the claim asserts that a user `y_up` below
the no-user-pass maximum is always overridden by that maximum.  With
`y_low = 100`, `y_up = 1` and a histogram whose no-user-pass maximum is
50, the swap fix-up at the top of `find_boundaries` exchanges the bounds
first, so the resolved `y_up` is 100, not 50, even though the user fixed
`y_up = 1 < 50` with `y_force_limits = False` and no reserved legend
space. -/
theorem claim_C2_counterexample :
    fbTH1 ⟨[50], [0], 0, 1, fun _ => 0, fun _ => 1⟩ none none none none false false true
      = some (0, 1, 50, 50)
    ∧ find_boundaries (fun _ => 0) (fun _ => 0)
        [RootObject.hist1d ⟨[50], [0], 0, 1, fun _ => 0, fun _ => 1⟩]
        none none (some 100) (some 1) none none false false false none none
        false false true
      = some ⟨0, 1, 1, 100, FLOAT_INFO_MAX, FLOAT_INFO_MIN⟩
    ∧ (100 : ℚ) ≠ 50 :=
  ⟨by with_unfolding_all rfl, by with_unfolding_all rfl, by norm_num⟩

/-- Claim C2 (amended): if the user fixes `y_up = u` below the no-user
pass maximum (the `y_up_new_no_user` merged by the object loop, whose
running maximum starts at the `sys.float_info.min` sentinel), y limits are
not forced, no legend space is reserved, and the swap fix-up does not
fire for the y axis (any user `y_low` is at most `u`), then the resolved
`y_up` equals the no-user-pass maximum. -/
theorem claim_C2 (log10 pow10 : ℚ → ℚ) (objects : List RootObject)
    (x_low x_up y_low z_low z_up : Option ℚ) (u : ℚ)
    (x_log y_log z_log x_force_limits y_account_for_errors : Bool)
    (st : MergeState) (r : Boundaries)
    (hns : ∀ v, y_low = some v → v ≤ u)
    (hm : mergeObjects (swapLimits x_low x_up).1 (swapLimits x_low x_up).2 y_low (some u)
            (swapLimits z_low z_up).1 (swapLimits z_low z_up).2 x_log y_log z_log
            y_account_for_errors objects initMergeState = some st)
    (hu : u < st.y_up_nu)
    (h : find_boundaries log10 pow10 objects x_low x_up y_low (some u) z_low z_up
          x_log y_log z_log none none x_force_limits false y_account_for_errors
          = some r) :
    r.y_up = st.y_up_nu := by
  unfold find_boundaries at h
  dsimp only at h
  rw [swapLimits_of_le y_low hns] at h
  dsimp only at h
  rw [hm] at h
  have hinv := mergeObjects_yup_inv objects initMergeState st hm
    ⟨le_refl _, le_max_left _ _, le_refl _⟩
  exact reconcilePipeline_yup hinv hu h

/-- Witness for claim C2 at a concrete input: one histogram with a single
bin of content 5, user `y_up = 3 < 5`; the resolved `y_up` is the
no-user-pass maximum 5. -/
theorem claim_C2_witness :
    (3 : ℚ) < 5
    ∧ Boundaries.y_up ⟨0, 1, 5, 5, FLOAT_INFO_MAX, FLOAT_INFO_MIN⟩ =
        MergeState.y_up_nu ⟨0, 1, 5, 3, FLOAT_INFO_MAX, FLOAT_INFO_MIN,
          0, 1, 5, 5, FLOAT_INFO_MAX, FLOAT_INFO_MIN, true⟩ :=
  ⟨by norm_num,
   claim_C2 (fun _ => 0) (fun _ => 0)
     [RootObject.hist1d ⟨[5], [0], 0, 1, fun _ => 0, fun _ => 1⟩]
     none none none none none 3 false false false false true
     ⟨0, 1, 5, 3, FLOAT_INFO_MAX, FLOAT_INFO_MIN,
       0, 1, 5, 5, FLOAT_INFO_MAX, FLOAT_INFO_MIN, true⟩
     ⟨0, 1, 5, 5, FLOAT_INFO_MAX, FLOAT_INFO_MIN⟩
     (fun v hv => nomatch hv) (by with_unfolding_all rfl)
     (by show (3 : ℚ) < 5; norm_num) (by with_unfolding_all rfl)⟩

/-- Claim C6 counterexample: the claim asserts that a region sharing its
x axis copies the sibling's resolved limits exactly.  With sibling limits
`[-1, 10]` and `x_log = True` on the sharing region, the final log clamp
replaces the forced `-1` by `MIN_LOG_SCALE`, so the resolved low bound is
not the sibling's. -/
theorem claim_C6_counterexample :
    createFrameLimits (fun _ => 0) (fun _ => 0) [RootObject.graph [(1, 2)]]
        (some (some (-1), some 10)) none (none, none) (none, none) (none, none)
        true false none none true
      = some ⟨MIN_LOG_SCALE, 10, 2, 2, FLOAT_INFO_MAX, FLOAT_INFO_MIN⟩
    ∧ MIN_LOG_SCALE ≠ (-1 : ℚ) :=
  ⟨by with_unfolding_all rfl, by norm_num [MIN_LOG_SCALE]⟩

/-- Claim C6 (amended): when region B is created with `share_x = A` and
A's resolved x limits are `[lo, hi]` (with `lo ≤ hi`), B's create step
resolves B's x limits to exactly `[lo, hi]` — the sibling bounds are
forced, skipping the (y-only) padding and legend logic — unless B's
x axis is log scale with `lo ≤ 0` (see the counterexample, where the low
end is clamped to `MIN_LOG_SCALE`); and B's frame styling sets the x-axis
title and label sizes to 0. -/
theorem claim_C6 (log10 pow10 : ℚ → ℚ) (objects : List RootObject)
    (share_y : Option (Option ℚ × Option ℚ)) (own_x own_y own_z : Option ℚ × Option ℚ)
    (lo hi : ℚ) (x_log y_log : Bool) (reserve_ndc_top reserve_ndc_bottom : Option ℚ)
    (y_account_for_errors : Bool) (title_size label_size fig_height : ℚ) (r : Boundaries)
    (hle : lo ≤ hi) (hlog : x_log = false ∨ 0 < lo)
    (h : createFrameLimits log10 pow10 objects (some (some lo, some hi)) share_y
          own_x own_y own_z x_log y_log reserve_ndc_top reserve_ndc_bottom
          y_account_for_errors = some r) :
    r.x_low = lo ∧ r.x_up = hi
    ∧ styleFrameXSizes true title_size label_size fig_height = (0, 0) := by
  unfold createFrameLimits find_boundaries at h
  dsimp only at h
  simp only [Option.getD_some, Option.isSome_some] at h
  rw [swapLimits_some_of_le hle] at h
  dsimp only at h
  split at h
  · exact absurd h (by simp)
  · have hx := reconcilePipeline_x_forced hlog h
    exact ⟨hx.1, hx.2, rfl⟩

/-- Witness for claim C6 at a concrete input: sibling limits `[-1, 10]`
with a linear x axis are copied exactly, and shared-x styling zeroes the
title and label sizes. -/
theorem claim_C6_witness :
    (-1 : ℚ) ≤ 10
    ∧ Boundaries.x_low ⟨-1, 10, 2, 2, FLOAT_INFO_MAX, FLOAT_INFO_MIN⟩ = -1
    ∧ Boundaries.x_up ⟨-1, 10, 2, 2, FLOAT_INFO_MAX, FLOAT_INFO_MIN⟩ = 10
    ∧ styleFrameXSizes true (1/50) (1/50) 300 = (0, 0) := by
  have h := claim_C6 (fun _ => (0:ℚ)) (fun _ => (0:ℚ)) [RootObject.graph [(1, 2)]]
    none (none, none) (none, none) (none, none) (-1) 10 false false none none true
    (1/50) (1/50) 300 ⟨-1, 10, 2, 2, FLOAT_INFO_MAX, FLOAT_INFO_MIN⟩
    (by norm_num) (Or.inl rfl) (by with_unfolding_all rfl)
  exact ⟨by norm_num, h.1, h.2.1, h.2.2⟩

end HFPlot
